import Mathlib

/-!
Shallow embedding of the tracking & dispatch core of the Antu logistics
backend (`app/services/tracking_service.py`, `driver_service.py`,
`vehicle_service.py`, `shipments_service.py`, with the SQLAlchemy models in
`app/models/`).

Modelling conventions:
* Python floats and `Decimal` values are idealised as `ℚ`.
* Timestamps (`recorded_at`) are rational numbers of seconds, so that
  `.total_seconds()` of a difference is plain subtraction.
* UUID / integer primary keys are `Nat`.
* The PostGIS-backed store is part of the database state: `DB.dist` is the
  store's `ST_Distance` on geography points (metres, as the code's
  `/ 1000` conversion and the route's `_meters` field names assume).
* A Python exception is an explicit `PyErr` value; fallible functions
  return `Except PyErr`, and functions that also mutate the store return
  the post-state alongside (each service function commits or rolls back
  its own work, so the state at the moment an exception escapes is
  returned with it).
-/

/-- One Python runtime error kind, as relevant to this code base. -/
inductive PyErr where
  /-- Python `TypeError`: a call whose arguments do not match the callee's
  signature, or a SQLAlchemy model constructor given an unmapped
  keyword argument. -/
  | typeError
  /-- Python `AttributeError`: reading an attribute that the object does not
  define. -/
  | attributeError
  /-- Models `raise Exception(msg)`. -/
  | exc (msg : String)
deriving DecidableEq, Repr

/-- A stored POINT geography: built by the code as
`Point(longitude, latitude)`, so `lng` is the x coordinate and `lat`
the y coordinate. -/
structure GeoPt where
  lng : ℚ
  lat : ℚ
deriving DecidableEq, Repr

/-- Enum `DriverStatus` from `app/models/driver_model.py`. -/
inductive DriverStatus where
  | available
  | on_duty
  | off_duty
deriving DecidableEq, Repr

/-- Enum `ShipmentStatus` from `app/models/shipment_model.py`. -/
inductive ShipmentStatus where
  | created
  | assigned
  | in_transit
  | delivered
  | delayed
  | cancelled
deriving DecidableEq, Repr

/-- Enum `VehicleStatus` from `app/models/vehicle_model.py`. -/
inductive VehicleStatus where
  | available
  | in_use
  | maintenance
  | inactive
deriving DecidableEq, Repr

/-- Enum `VehicleType` from `app/models/vehicle_model.py`. -/
inductive VehicleType where
  | motorcycle
  | van
  | truck
  | pickup
deriving DecidableEq, Repr

/-- Row of `tracking_points` (`app/models/tracking_model.py`).  The mapped
columns are exactly `id`, `shipment_id`, `location`, `speed_kmh`,
`recorded_at` and `notes` — in particular there is **no** `driver_id`
column and **no** `speed_kph` column, and no `x`/`y` attributes. -/
structure TrackingPointRec where
  id : Nat
  shipment_id : Nat
  location : GeoPt
  speed_kmh : Option ℚ
  recorded_at : ℚ
  notes : Option String
deriving DecidableEq, Repr

/-- Row of `drivers` (`app/models/driver_model.py`), fields used by the
tracking/dispatch core. -/
structure DriverRec where
  id : Nat
  vehicle_id : Option Nat
  status : DriverStatus
  location : Option GeoPt
  is_active : Bool
deriving DecidableEq, Repr

/-- Row of `vehicles` (`app/models/vehicle_model.py`), fields used by the
core. -/
structure VehicleRec where
  id : Nat
  vehicle_type : VehicleType
  capacity_kg : ℚ
  status : VehicleStatus
  is_active : Bool
deriving DecidableEq, Repr

/-- Row of `shipments` (`app/models/shipment_model.py`), fields used by the
core.  The model maps `origin`, `destination`, `weight_kg`, `status`,
`driver_id`, `estimated_distance_km`, … — it has **no** `route` column, so
`shipment.route` is an undefined attribute. -/
structure ShipmentRec where
  id : Nat
  driver_id : Option Nat
  origin : GeoPt
  destination : GeoPt
  weight_kg : ℚ
  status : ShipmentStatus
  estimated_distance_km : Option ℚ
deriving DecidableEq, Repr

/-- The persistent store seen by one request: the table contents (lists in
stored order) together with the PostGIS distance primitive
(`ST_Distance` on geography values, in metres) that the queries invoke. -/
structure DB where
  drivers : List DriverRec
  vehicles : List VehicleRec
  shipments : List ShipmentRec
  tracking_points : List TrackingPointRec
  dist : GeoPt → GeoPt → ℚ

/-- Models `db.query(Driver).filter(Driver.id == id).first()`. -/
def getDriver (db : DB) (id : Nat) : Option DriverRec :=
  db.drivers.find? (fun d => decide (d.id = id))

/-- Models `db.query(Vehicle).filter(Vehicle.id == id).first()`. -/
def getVehicle (db : DB) (id : Nat) : Option VehicleRec :=
  db.vehicles.find? (fun v => decide (v.id = id))

/-- Models `db.query(Shipment).filter(Shipment.id == id).first()`. -/
def getShipment (db : DB) (id : Nat) : Option ShipmentRec :=
  db.shipments.find? (fun s => decide (s.id = id))

/-- Insert a tracking point into a list sorted by `recorded_at` (stable:
a point with an equal timestamp goes after the existing ones). -/
def insertByTime (p : TrackingPointRec) :
    List TrackingPointRec → List TrackingPointRec
  | [] => [p]
  | q :: r =>
      if p.recorded_at < q.recorded_at then p :: q :: r
      else q :: insertByTime p r

/-- Stable sort by `recorded_at` ascending; models
`.order_by(TrackingPoint.recorded_at.asc())`. -/
def sortByTime : List TrackingPointRec → List TrackingPointRec
  | [] => []
  | p :: r => insertByTime p (sortByTime r)

/-- Models `db.query(TrackingPoint).filter(TrackingPoint.shipment_id ==
shipment_id).order_by(TrackingPoint.recorded_at.asc()).all()`. -/
def orderedTrackingPoints (db : DB) (shipment_id : Nat) :
    List TrackingPointRec :=
  sortByTime (db.tracking_points.filter (fun p => decide (p.shipment_id = shipment_id)))

/-- The same query without an `ORDER BY`: rows in stored order, as used by
`calculate_total_distance_traveled`. -/
def storedTrackingPoints (db : DB) (shipment_id : Nat) :
    List TrackingPointRec :=
  db.tracking_points.filter (fun p => decide (p.shipment_id = shipment_id))

/-- Floor of a rational, written as integer division of the numerator by
the denominator (the computation `Rat.floor_def` certifies equal to
`Int.floor`). -/
def ratFloor (q : ℚ) : ℤ := q.num / (q.den : ℤ)

/-- Python's `round(x, 2)`: round half to even at two decimals. -/
def pyRound2 (q : ℚ) : ℚ :=
  let s := q * 100
  let n : ℤ := ratFloor s
  let frac := s - (n : ℚ)
  let r : ℤ :=
    if frac > 1 / 2 then n + 1
    else if frac < 1 / 2 then n
    else if n % 2 = 0 then n else n + 1
  (r : ℚ) / 100

/-- Python's `round(x, 1)`: round half to even at one decimal. -/
def pyRound1 (q : ℚ) : ℚ :=
  let s := q * 10
  let n : ℤ := ratFloor s
  let frac := s - (n : ℚ)
  let r : ℤ :=
    if frac > 1 / 2 then n + 1
    else if frac < 1 / 2 then n
    else if n % 2 = 0 then n else n + 1
  (r : ℚ) / 10

/-- Models `Decimal.quantize(Decimal("0.01"), rounding=ROUND_HALF_UP)`: two
decimals, ties away from zero. -/
def quantizeHalfUp2 (q : ℚ) : ℚ :=
  if q ≥ 0 then ((ratFloor (q * 100 + 1 / 2) : ℤ) : ℚ) / 100
  else -(((ratFloor (-q * 100 + 1 / 2) : ℤ) : ℚ) / 100)

/-! ### `app/services/shipments_service.py` -/

/-- Function `calculate_distance_km(db, origin_lat, origin_lng, dest_lat, dest_lng)`:
builds `POINT(lng lat)` WKT for both ends, asks the store for
`ST_Distance` (metres), divides by 1000 and quantizes to two decimals
with `ROUND_HALF_UP`.  (The `distance_meters is None` branch cannot fire
against the total store model.) -/
def calculate_distance_km (db : DB)
    (origin_lat origin_lng dest_lat dest_lng : ℚ) : ℚ :=
  let distance_meters := db.dist ⟨origin_lng, origin_lat⟩ ⟨dest_lng, dest_lat⟩
  quantizeHalfUp2 (distance_meters / 1000)

/-- Function `validate_coordinates(latitude, longitude)` from
`shipments_service.py`: `True` iff `-90 <= lat <= 90 and -180 <= lng <=
180`.  (Defined in the code base but never called on the ping path.) -/
def validate_coordinates (latitude longitude : ℚ) : Bool :=
  decide (-90 ≤ latitude ∧ latitude ≤ 90 ∧ -180 ≤ longitude ∧ longitude ≤ 180)

/-! ### Call sites that raise before any distance is computed

`calculate_distance_km` has five required positional parameters, the
first being the `db` session.  Several callers pass only four coordinate
values, so Python raises `TypeError: ... missing 1 required positional
argument: 'dest_lng'` before the callee's body runs.  In the tracking
analytics loops the arguments themselves already raise: they read
`prev_point.x` / `prev_point.y`, and `TrackingPoint` maps no `x` or `y`
attribute, so evaluating the argument list raises `AttributeError`
first.  Likewise `find_nearest_available_driver` reads
`driver.location.y` on a raw geography element, which exposes no
`x`/`y`. -/

/-- Models `calculate_distance_km(prev_point.x, prev_point.y,
curr_point.x, curr_point.y)` in the analytics loops: evaluating
`prev_point.x` raises `AttributeError` (no such mapped attribute), and
the four-argument call would be a `TypeError` in any case. -/
def calculate_distance_km_from_points (_prev _curr : TrackingPointRec) :
    Except PyErr ℚ :=
  .error .attributeError

/-- Models `calculate_distance_km(driver.location.y, driver.location.x,
origin_lat, origin_lng)` in `find_nearest_available_driver`: evaluating
`driver.location.y` raises `AttributeError`, and the four-argument call
would be a `TypeError` in any case. -/
def calculate_distance_km_driver_call (_driver : DriverRec)
    (_origin_lat _origin_lng : ℚ) : Except PyErr ℚ :=
  .error .attributeError

/-- Models `calculate_distance_km(current_location_lat,
current_location_lng, destination_lat, destination_lng)` in
`calculate_estimated_delivery_time`: four plain floats are passed where
five positional parameters (the store session first) are required, so
the call raises `TypeError`. -/
def calculate_distance_km_missing_db (_a _b _c _d : ℚ) : Except PyErr ℚ :=
  .error .typeError

/-! ### `app/services/tracking_service.py` — ingest path -/

/-- The `TrackingPoint(driver_id=…, shipment_id=…, location=…,
speed_kph=…)` constructor call in `save_tracking_point`: the model maps
neither `driver_id` nor `speed_kph`, so SQLAlchemy's declarative
constructor raises `TypeError` for the unexpected keyword arguments. -/
def trackingPointCtor (_driver_id _shipment_id : Nat) (_location : GeoPt)
    (_speed_kph : Option ℚ) : Except PyErr TrackingPointRec :=
  .error .typeError

/-- Function `save_tracking_point`: builds the point inside `try`, on success adds
and commits it; on any exception rolls back (state unchanged) and
re-raises `Exception("Error saving tracking point")`. -/
def save_tracking_point (db : DB) (driver_id shipment_id : Nat)
    (latitude longitude : ℚ) (speed_kph : Option ℚ) :
    Except PyErr TrackingPointRec × DB :=
  match trackingPointCtor driver_id shipment_id ⟨longitude, latitude⟩ speed_kph with
  | .ok tracking =>
      (.ok tracking, { db with tracking_points := db.tracking_points ++ [tracking] })
  | .error _ =>
      (.error (.exc "Error saving tracking point"), db)

/-- Function `update_driver_current_location`: raises `Exception("Driver not
found")` when the driver is absent, otherwise overwrites
`driver.location` with `Point(longitude, latitude)` and commits. -/
def update_driver_current_location (db : DB) (driver_id : Nat)
    (latitude longitude : ℚ) : Except PyErr DriverRec × DB :=
  match getDriver db driver_id with
  | none => (.error (.exc "Driver not found"), db)
  | some driver =>
      let driver' := { driver with location := some ⟨longitude, latitude⟩ }
      (.ok driver',
        { db with drivers := db.drivers.map (fun d => if d.id = driver_id then driver' else d) })

/-- Result dict of `calculate_route_deviation`. -/
structure DeviationResult where
  distance_from_route_meters : ℚ
  is_deviated : Bool
deriving DecidableEq, Repr

/-- Function `calculate_route_deviation`: evaluates
`if not shipment or not shipment.route:`.  When the shipment is missing
the left disjunct short-circuits and
`Exception("Shipment route not found")` is raised; when the shipment
exists, reading `shipment.route` raises `AttributeError`, because the
`Shipment` model maps no `route` column.  The `ST_Distance` query and
the result dict below the check are unreachable. -/
def calculate_route_deviation (db : DB) (shipment_id : Nat)
    (_latitude _longitude : ℚ) (_threshold_meters : ℚ := 100) :
    Except PyErr DeviationResult :=
  match getShipment db shipment_id with
  | none => .error (.exc "Shipment route not found")
  | some _ => .error .attributeError

/-- Result dict of `track_driver`. -/
structure TrackResult where
  tracking_id : Nat
  distance_from_route_meters : ℚ
  is_deviated : Bool
deriving DecidableEq, Repr

/-- Function `track_driver`: saves the tracking point, then updates the driver's
location, then computes route deviation; each step's exception escapes
with whatever state the committed steps left behind. -/
def track_driver (db : DB) (driver_id shipment_id : Nat)
    (latitude longitude : ℚ) (speed_kph : Option ℚ) :
    Except PyErr TrackResult × DB :=
  match save_tracking_point db driver_id shipment_id latitude longitude speed_kph with
  | (.error e, db1) => (.error e, db1)
  | (.ok tracking, db1) =>
      match update_driver_current_location db1 driver_id latitude longitude with
      | (.error e, db2) => (.error e, db2)
      | (.ok _, db2) =>
          match calculate_route_deviation db2 shipment_id latitude longitude with
          | .error e => (.error e, db2)
          | .ok deviation =>
              (.ok { tracking_id := tracking.id,
                     distance_from_route_meters := deviation.distance_from_route_meters,
                     is_deviated := deviation.is_deviated }, db2)

/-! ### `app/services/tracking_service.py` — analytics -/

/-- Segment length of the store's `ST_Length(ST_MakeLine(points))`: a
line through the given points measured by the store's distance, i.e. the
sum of consecutive segment lengths; empty or single-point input has
length 0 (the query's `result or 0`). -/
def lineLength (db : DB) : List GeoPt → ℚ
  | [] => 0
  | [_] => 0
  | a :: b :: rest => db.dist a b + lineLength db (b :: rest)

/-- Function `calculate_total_distance_traveled`: queries
`ST_Length(ST_MakeLine(TrackingPoint.location))` over the shipment's
points — with **no** `ORDER BY`, so in stored order — and returns
`round(float(result or 0), 2)`.  The store's length is in its native
unit (metres for geography), not divided by 1000. -/
def calculate_total_distance_traveled (db : DB) (shipment_id : Nat) : ℚ :=
  pyRound2 (lineLength db ((storedTrackingPoints db shipment_id).map (·.location)))

/-- Result dict of `calculate_average_speed`.  The two early-return
branches carry only `average_speed_kmh`, `max_speed_kmh` and `message`;
the final dict instead carries `min_speed_kmh`,
`calculated_from_points` and `recorded_speeds_available` (and no
`message`).  Keys absent from a branch are `none`. -/
structure SpeedResult where
  average_speed_kmh : ℚ
  max_speed_kmh : ℚ
  min_speed_kmh : Option ℚ
  message : Option String
  calculated_from_points : Option Nat
  recorded_speeds_available : Option Nat
deriving DecidableEq, Repr

/-- The pair loop of `calculate_average_speed`: for each consecutive
pair compute the distance (which raises, see
`calculate_distance_km_from_points`), the elapsed time in hours, and
append `distance / time_diff` when `time_diff > 0`. -/
def speedsLoop : List (TrackingPointRec × TrackingPointRec) → List ℚ →
    Except PyErr (List ℚ)
  | [], acc => .ok acc
  | (prev_point, curr_point) :: rest, acc => do
      let distance ← calculate_distance_km_from_points prev_point curr_point
      let time_diff := (curr_point.recorded_at - prev_point.recorded_at) / 3600
      let acc' := if time_diff > 0 then acc ++ [distance / time_diff] else acc
      speedsLoop rest acc'

/-- Maximum of a list of rationals with default 0 (`max(speeds)` on the
nonempty list). -/
def listMax : List ℚ → ℚ
  | [] => 0
  | a :: r => (a :: r).foldl max a

/-- Minimum of a list of rationals with default 0 (`min(speeds)` on the
nonempty list). -/
def listMin : List ℚ → ℚ
  | [] => 0
  | a :: r => (a :: r).foldl min a

/-- Function `calculate_average_speed`: orders the shipment's points by
`recorded_at`; fewer than 2 points returns the zero
average/max-with-message dict (no `min_speed_kmh` key); otherwise the
pair loop runs — and raises at its first distance call. -/
def calculate_average_speed (shipment_id : Nat) (db : DB) :
    Except PyErr SpeedResult :=
  let tracking_points := orderedTrackingPoints db shipment_id
  if tracking_points.length < 2 then
    .ok { average_speed_kmh := 0, max_speed_kmh := 0, min_speed_kmh := none,
          message := some "Insufficient tracking data",
          calculated_from_points := none, recorded_speeds_available := none }
  else do
    let speeds ← speedsLoop (tracking_points.zip tracking_points.tail) []
    if speeds = [] then
      pure { average_speed_kmh := 0, max_speed_kmh := 0, min_speed_kmh := none,
             message := some "Could not calculate speed",
             calculated_from_points := none, recorded_speeds_available := none }
    else
      let recorded_speeds := tracking_points.filterMap (·.speed_kmh)
      pure { average_speed_kmh := pyRound2 (speeds.sum / speeds.length),
             max_speed_kmh := pyRound2 (listMax speeds),
             min_speed_kmh := some (pyRound2 (listMin speeds)),
             message := none,
             calculated_from_points := some speeds.length,
             recorded_speeds_available := some recorded_speeds.length }

/-- One entry of `detect_delivery_stops`' result list.  The source reads
`prev_point.x` / `prev_point.y` for the `latitude` / `longitude` keys;
those attribute reads are what makes the loop raise, so this record
is only ever built in dead code and mirrors the stored coordinates. -/
structure StopRec where
  latitude : ℚ
  longitude : ℚ
  start_time : ℚ
  end_time : ℚ
  duration_minutes : ℚ
  notes : String
deriving DecidableEq, Repr

/-- The pair loop of `detect_delivery_stops`: compute distance (which
raises, see `calculate_distance_km_from_points`), the elapsed minutes,
and record a stop when `distance < 0.1 and time_diff_minutes >=
min_stop_minutes`. -/
def stopsLoop (min_stop_minutes : ℚ) :
    List (TrackingPointRec × TrackingPointRec) → List StopRec →
    Except PyErr (List StopRec)
  | [], acc => .ok acc
  | (prev_point, curr_point) :: rest, acc => do
      let distance ← calculate_distance_km_from_points prev_point curr_point
      let time_diff_minutes := (curr_point.recorded_at - prev_point.recorded_at) / 60
      let acc' :=
        if distance < 1 / 10 ∧ time_diff_minutes ≥ min_stop_minutes then
          acc ++ [{ latitude := prev_point.location.lng,
                    longitude := prev_point.location.lat,
                    start_time := prev_point.recorded_at,
                    end_time := curr_point.recorded_at,
                    duration_minutes := pyRound1 time_diff_minutes,
                    notes := prev_point.notes.getD "Unspecified stop" }]
        else acc
      stopsLoop min_stop_minutes rest acc'

/-- Function `detect_delivery_stops`: orders the shipment's points by
`recorded_at`; fewer than 2 points returns `[]`; otherwise the pair loop
runs — and raises at its first distance call. -/
def detect_delivery_stops (shipment_id : Nat) (db : DB)
    (min_stop_minutes : ℚ := 5) : Except PyErr (List StopRec) :=
  let tracking_points := orderedTrackingPoints db shipment_id
  if tracking_points.length < 2 then .ok []
  else stopsLoop min_stop_minutes (tracking_points.zip tracking_points.tail) []

/-- Result dict of `calculate_estimated_delivery_time` (the `eta` /
`eta_formatted` wall-clock fields, derived from `datetime.utcnow()`,
are not part of the deterministic result). -/
structure EtaResult where
  remaining_distance_km : ℚ
  current_speed_kmh : ℚ
  estimated_time_minutes : ℚ
deriving DecidableEq, Repr

/-- The speed-fallback expression of `calculate_estimated_delivery_time`:
`current_speed_kmh if current_speed_kmh and current_speed_kmh > 0 else
40` — `None` and `0` are falsy, negative values fail the `> 0` test, so
anything but a strictly positive provided speed yields 40. -/
def speedOrFallback : Option ℚ → ℚ
  | none => 40
  | some s => if s ≠ 0 ∧ s > 0 then s else 40

/-- Function `calculate_estimated_delivery_time`: after two stray assignments to
model *class* attributes (no effect on the result), it computes the
remaining distance — a call that raises `TypeError`, see
`calculate_distance_km_missing_db` — and only then would pick the speed
and build the ETA dict.  There is no speed validation and no
`InvalidSpeed` error anywhere in the function. -/
def calculate_estimated_delivery_time
    (current_location_lat current_location_lng destination_lat destination_lng : ℚ)
    (current_speed_kmh : Option ℚ := none) : Except PyErr EtaResult := do
  let remaining_distance ← calculate_distance_km_missing_db
    current_location_lat current_location_lng destination_lat destination_lng
  let speed := speedOrFallback current_speed_kmh
  let time_minutes := remaining_distance / speed * 60
  pure { remaining_distance_km := pyRound2 remaining_distance,
         current_speed_kmh := pyRound2 speed,
         estimated_time_minutes := pyRound1 time_minutes }

/-- One anomaly dict of `validate_tracking_point_sequence`. -/
inductive Anomaly where
  /-- Dict with type time_sequence and the offending point id. -/
  | time_sequence (point_id : Nat)
  /-- Dict with type impossible_speed, the offending point id and the rounded speed. -/
  | impossible_speed (point_id : Nat) (speed_kmh : ℚ)
deriving DecidableEq, Repr

/-- Result dict of `validate_tracking_point_sequence`; the
fewer-than-2-points branch has no `total_points_checked` key. -/
structure ValidationResult where
  valid : Bool
  anomalies : List Anomaly
  total_points_checked : Option Nat
  message : String
deriving DecidableEq, Repr

/-- The pair loop of `validate_tracking_point_sequence`: first the time
check (`curr.recorded_at <= prev.recorded_at` appends a
`time_sequence` anomaly), then the distance call — which raises, see
`calculate_distance_km_from_points` — then the speed check
(`speed > 150` appends an `impossible_speed` anomaly when the elapsed
time is positive). -/
def anomaliesLoop : List (TrackingPointRec × TrackingPointRec) → List Anomaly →
    Except PyErr (List Anomaly)
  | [], acc => .ok acc
  | (prev_point, curr_point) :: rest, acc => do
      let acc1 :=
        if curr_point.recorded_at ≤ prev_point.recorded_at then
          acc ++ [.time_sequence curr_point.id]
        else acc
      let distance ← calculate_distance_km_from_points prev_point curr_point
      let time_diff_hours := (curr_point.recorded_at - prev_point.recorded_at) / 3600
      let acc2 :=
        if time_diff_hours > 0 then
          let speed := distance / time_diff_hours
          if speed > 150 then
            acc1 ++ [.impossible_speed curr_point.id (pyRound2 speed)]
          else acc1
        else acc1
      anomaliesLoop rest acc2

/-- Function `validate_tracking_point_sequence`: orders the shipment's points by
`recorded_at`; fewer than 2 points returns the trivially-valid dict;
otherwise the pair loop runs — and raises at its first distance call. -/
def validate_tracking_point_sequence (shipment_id : Nat) (db : DB) :
    Except PyErr ValidationResult :=
  let tracking_points := orderedTrackingPoints db shipment_id
  if tracking_points.length < 2 then
    .ok { valid := true, anomalies := [], total_points_checked := none,
          message := "Not enough data to validate" }
  else do
    let anomalies ← anomaliesLoop (tracking_points.zip tracking_points.tail) []
    pure { valid := decide (anomalies.length = 0), anomalies := anomalies,
           total_points_checked := some tracking_points.length,
           message := if anomalies.length = 0 then "Validation complete"
                      else "Found anomalies" }

/-! ### `app/services/driver_service.py` -/

/-- Result dict of `get_driver_active_workload`. -/
structure WorkloadResult where
  assigned_shipments : Nat
  in_transit_shipments : Nat
  total_active : Nat
  pending_distance_km : ℚ
  workload_status : String
  can_accept_more : Bool
deriving DecidableEq, Repr

/-- Function `get_driver_active_workload`: counts the driver's `ASSIGNED` and
`IN_TRANSIT` shipments, sums their `estimated_distance_km or 0`, bands
the workload status, and sets `can_accept_more = total_active < 5`. -/
def get_driver_active_workload (driver_id : Nat) (db : DB) : WorkloadResult :=
  let assigned := (db.shipments.filter (fun s =>
    decide (s.driver_id = some driver_id ∧ s.status = ShipmentStatus.assigned))).length
  let in_transit := (db.shipments.filter (fun s =>
    decide (s.driver_id = some driver_id ∧ s.status = ShipmentStatus.in_transit))).length
  let total_active := assigned + in_transit
  let active_shipments := db.shipments.filter (fun s =>
    decide (s.driver_id = some driver_id ∧
      (s.status = ShipmentStatus.assigned ∨ s.status = ShipmentStatus.in_transit)))
  let pending_distance := (active_shipments.map (fun s => s.estimated_distance_km.getD 0)).sum
  { assigned_shipments := assigned,
    in_transit_shipments := in_transit,
    total_active := total_active,
    pending_distance_km := pyRound2 pending_distance,
    workload_status :=
      if total_active = 0 then "free"
      else if total_active ≤ 2 then "light"
      else if total_active ≤ 5 then "moderate"
      else "heavy",
    can_accept_more := decide (total_active < 5) }

/-- The `reason` strings of `check_driver_availability_for_shipment`, as
a closed enumeration; the payloads carry the values the f-strings
interpolate. -/
inductive AvailReason where
  /-- Reason string: driver not found. -/
  | driverNotFound
  /-- Reason string: driver is not active. -/
  | driverNotActive
  /-- Reason string: driver is off duty. -/
  | driverOffDuty
  /-- Reason f-string: driver has maximum workload, with the active count. -/
  | maxWorkload (total_active : Nat)
  /-- Reason f-string: vehicle capacity insufficient, with both weights. -/
  | vehicleCapacityInsufficient (capacity_kg weight_kg : ℚ)
  /-- Reason string: driver has no vehicle assigned. -/
  | noVehicleAssigned
  /-- Reason string: driver is available. -/
  | driverIsAvailable
deriving DecidableEq, Repr

/-- Result dict of `check_driver_availability_for_shipment`; the success
dict additionally carries `current_workload` and `driver_status`. -/
structure AvailResult where
  available : Bool
  reason : AvailReason
  current_workload : Option Nat
  driver_status : Option DriverStatus
deriving DecidableEq, Repr

/-- Function `check_driver_availability_for_shipment`: short-circuiting checks —
not found / not active / off duty / workload full — then, when a vehicle
id is assigned (`if driver.vehicle_id:`, always truthy for an assigned
UUID), the vehicle is looked up and rejected only when it both exists
and has `capacity_kg < shipment_weight_kg`; a missing vehicle record
falls through to the success dict.  When no vehicle id is assigned, the
`else` branch rejects with the no-vehicle reason. -/
def check_driver_availability_for_shipment (driver_id : Nat)
    (shipment_weight_kg : ℚ) (db : DB) : AvailResult :=
  match getDriver db driver_id with
  | none =>
      { available := false, reason := .driverNotFound,
        current_workload := none, driver_status := none }
  | some driver =>
      if driver.is_active = false then
        { available := false, reason := .driverNotActive,
          current_workload := none, driver_status := none }
      else if driver.status = DriverStatus.off_duty then
        { available := false, reason := .driverOffDuty,
          current_workload := none, driver_status := none }
      else
        let workload := get_driver_active_workload driver_id db
        if workload.can_accept_more = false then
          { available := false, reason := .maxWorkload workload.total_active,
            current_workload := none, driver_status := none }
        else
          match driver.vehicle_id with
          | some vid =>
              match getVehicle db vid with
              | some vehicle =>
                  if vehicle.capacity_kg < shipment_weight_kg then
                    { available := false,
                      reason := .vehicleCapacityInsufficient vehicle.capacity_kg shipment_weight_kg,
                      current_workload := none, driver_status := none }
                  else
                    { available := true, reason := .driverIsAvailable,
                      current_workload := some workload.total_active,
                      driver_status := some driver.status }
              | none =>
                  { available := true, reason := .driverIsAvailable,
                    current_workload := some workload.total_active,
                    driver_status := some driver.status }
          | none =>
              { available := false, reason := .noVehicleAssigned,
                current_workload := none, driver_status := none }

/-- The candidate scan of `find_nearest_available_driver`: for each
driver the availability check runs; an available candidate's distance to
the pickup point is computed — a call that raises, see
`calculate_distance_km_driver_call` — and would replace the running
nearest when `distance < nearest_distance and distance <=
max_distance_km` (`nearest_distance` starts at `float('inf')`, modelled
by `none`). -/
def findNearestScan (db : DB) (shipment_weight_kg origin_lat origin_lng max_distance_km : ℚ) :
    List DriverRec → Option DriverRec → Option ℚ →
    Except PyErr (Option DriverRec × Option ℚ)
  | [], nearest_driver, nearest_distance => .ok (nearest_driver, nearest_distance)
  | driver :: rest, nearest_driver, nearest_distance => do
      let availability := check_driver_availability_for_shipment driver.id shipment_weight_kg db
      if availability.available = false then
        findNearestScan db shipment_weight_kg origin_lat origin_lng max_distance_km
          rest nearest_driver nearest_distance
      else do
        let distance ← calculate_distance_km_driver_call driver origin_lat origin_lng
        let closer := match nearest_distance with
          | none => true
          | some nd => decide (distance < nd)
        if closer && decide (distance ≤ max_distance_km) then
          findNearestScan db shipment_weight_kg origin_lat origin_lng max_distance_km
            rest (some driver) (some distance)
        else
          findNearestScan db shipment_weight_kg origin_lat origin_lng max_distance_km
            rest nearest_driver nearest_distance

/-- Function `find_nearest_available_driver`: filters to
`is_active`, `status in (AVAILABLE, ON_DUTY)`, `location is not None`,
scans the candidates, and returns `(driver, distance)` when a nearest
driver was found, else `None`. -/
def find_nearest_available_driver (origin_lat origin_lng shipment_weight_kg : ℚ)
    (db : DB) (max_distance_km : ℚ := 50) :
    Except PyErr (Option (DriverRec × ℚ)) := do
  let drivers := db.drivers.filter (fun d =>
    d.is_active &&
    decide (d.status = DriverStatus.available ∨ d.status = DriverStatus.on_duty) &&
    decide (d.location ≠ none))
  let (nearest_driver, nearest_distance) ←
    findNearestScan db shipment_weight_kg origin_lat origin_lng max_distance_km
      drivers none none
  match nearest_driver, nearest_distance with
  | some d, some nd => pure (some (d, nd))
  | _, _ => pure none

/-! ### `app/services/vehicle_service.py` -/

/-- The suitability filter of `get_optimal_vehicle_for_shipment`:
`status == AVAILABLE`, `is_active`, `capacity_kg >= weight_kg`, rows in
stored order. -/
def suitableVehicles (weight_kg : ℚ) (db : DB) : List VehicleRec :=
  db.vehicles.filter (fun v =>
    decide (v.status = VehicleStatus.available) && v.is_active &&
    decide (v.capacity_kg ≥ weight_kg))

/-- Function `get_optimal_vehicle_for_shipment`: no suitable vehicle ⇒ `None`;
then one tier is chosen — `distance < 5 and weight < 10` prefers the
first suitable motorcycle, `elif distance < 20 and weight < 500` the
first suitable van or pickup, `else` the first suitable truck — and if
the preferred scan finds nothing the first suitable vehicle is
returned. -/
def get_optimal_vehicle_for_shipment (weight_kg distance_km : ℚ) (db : DB) :
    Option VehicleRec :=
  let suitable_vehicles := suitableVehicles weight_kg db
  if suitable_vehicles.isEmpty then none
  else
    let preferred :=
      if distance_km < 5 ∧ weight_kg < 10 then
        suitable_vehicles.find? (fun v => decide (v.vehicle_type = VehicleType.motorcycle))
      else if distance_km < 20 ∧ weight_kg < 500 then
        suitable_vehicles.find? (fun v =>
          decide (v.vehicle_type = VehicleType.van ∨ v.vehicle_type = VehicleType.pickup))
      else
        suitable_vehicles.find? (fun v => decide (v.vehicle_type = VehicleType.truck))
    match preferred with
    | some v => some v
    | none => suitable_vehicles.head?

/-! ### The claim side of the total-distance refinement -/

/-- Follows the claim's words (spec §4.3): the sum, in kilometres, of
consecutive pairwise `distanceKm` (i.e. `calculate_distance_km`) over
the shipment's tracking log ordered by `recorded_at` ascending. -/
def claimed_total_distance_km (db : DB) (shipment_id : Nat) : ℚ :=
  let pts := orderedTrackingPoints db shipment_id
  ((pts.zip pts.tail).map (fun pr =>
    calculate_distance_km db pr.1.location.lat pr.1.location.lng
      pr.2.location.lat pr.2.location.lng)).sum

/-! ### Concrete store fixtures for the counterexamples and witnesses -/

/-- An empty store. -/
def dbEmpty : DB :=
  { drivers := [], vehicles := [], shipments := [], tracking_points := [],
    dist := fun _ _ => 0 }

/-- A store holding exactly one shipment, with id 1. -/
def dbOneShipment : DB :=
  { dbEmpty with shipments :=
      [{ id := 1, driver_id := none, origin := ⟨0, 0⟩, destination := ⟨1, 1⟩,
         weight_kg := 10, status := ShipmentStatus.created,
         estimated_distance_km := some 5 }] }

/-- A store with one fully eligible driver (active, available, located,
assigned vehicle 5 of capacity 100) and no shipments. -/
def dbEligibleDriver : DB :=
  { dbEmpty with
    drivers := [{ id := 1, vehicle_id := some 5, status := DriverStatus.available,
                  location := some ⟨0, 0⟩, is_active := true }],
    vehicles := [{ id := 5, vehicle_type := VehicleType.van, capacity_kg := 100,
                   status := VehicleStatus.available, is_active := true }] }

/-- A store with a two-point tracking log for shipment 1 (timestamps 0
and 60 seconds) and no points for shipment 2. -/
def dbTwoPoints : DB :=
  { dbEmpty with tracking_points :=
      [{ id := 1, shipment_id := 1, location := ⟨0, 0⟩, speed_kmh := none,
         recorded_at := 0, notes := none },
       { id := 2, shipment_id := 1, location := ⟨1, 0⟩, speed_kmh := none,
         recorded_at := 60, notes := none }] }

/-- A store whose distance primitive returns 1000 metres for every pair,
with a two-point log for shipment 1. -/
def dbKilometreApart : DB :=
  { dbTwoPoints with dist := fun _ _ => 1000 }

/-- A store with a two-point log for shipment 1 whose points are 360
seconds (6 minutes) apart and 50 metres apart by the store's distance. -/
def dbSixMinutesApart : DB :=
  { dbEmpty with
    dist := fun _ _ => 50,
    tracking_points :=
      [{ id := 1, shipment_id := 1, location := ⟨0, 0⟩, speed_kmh := none,
         recorded_at := 0, notes := none },
       { id := 2, shipment_id := 1, location := ⟨0, 0⟩, speed_kmh := none,
         recorded_at := 360, notes := none }] }

/-- The suitable van of the vehicle-selection fixtures. -/
def vanOnly : VehicleRec :=
  { id := 3, vehicle_type := VehicleType.van, capacity_kg := 50,
    status := VehicleStatus.available, is_active := true }

/-- A store whose only vehicle is a suitable van. -/
def dbVanOnly : DB :=
  { dbEmpty with vehicles := [vanOnly] }

/-- The suitable motorcycle of the tie fixture. -/
def motoSuitable : VehicleRec :=
  { id := 7, vehicle_type := VehicleType.motorcycle, capacity_kg := 20,
    status := VehicleStatus.available, is_active := true }

/-- A store with a suitable motorcycle and a suitable van. -/
def dbMotoAndVan : DB :=
  { dbEmpty with vehicles := [vanOnly, motoSuitable] }

/-- A store with one active, available, under-workload driver whose
assigned vehicle id 99 has no vehicle record. -/
def dbDanglingVehicle : DB :=
  { dbEmpty with
    drivers := [{ id := 1, vehicle_id := some 99, status := DriverStatus.available,
                  location := some ⟨0, 0⟩, is_active := true }] }

/-! ### Helper lemmas -/

/-- Behaviour: `track_driver` fails at its very first step for every input: the
`TrackingPoint` constructor call in `save_tracking_point` raises, the
handler rolls back and re-raises the generic save error, and no later
step runs. -/
theorem track_driver_run (db : DB) (driver_id shipment_id : Nat)
    (latitude longitude : ℚ) (speed_kph : Option ℚ) :
    track_driver db driver_id shipment_id latitude longitude speed_kph
      = (.error (.exc "Error saving tracking point"), db) := rfl

/-- Behaviour: `calculate_route_deviation` raises on every input: the route-not-found
exception when the shipment is absent, an `AttributeError` otherwise. -/
theorem calculate_route_deviation_run (db : DB) (shipment_id : Nat)
    (latitude longitude threshold_meters : ℚ) :
    calculate_route_deviation db shipment_id latitude longitude threshold_meters
      = (match getShipment db shipment_id with
         | none => .error (.exc "Shipment route not found")
         | some _ => .error .attributeError) := rfl

/-- The anomaly loop raises at the distance call of its first pair. -/
theorem anomaliesLoop_cons (prev_point curr_point : TrackingPointRec)
    (rest : List (TrackingPointRec × TrackingPointRec)) (acc : List Anomaly) :
    anomaliesLoop ((prev_point, curr_point) :: rest) acc = .error .attributeError := rfl

/-- The speeds loop raises at the distance call of its first pair. -/
theorem speedsLoop_cons (prev_point curr_point : TrackingPointRec)
    (rest : List (TrackingPointRec × TrackingPointRec)) (acc : List ℚ) :
    speedsLoop ((prev_point, curr_point) :: rest) acc = .error .attributeError := rfl

/-- The stops loop raises at the distance call of its first pair. -/
theorem stopsLoop_cons (m : ℚ) (prev_point curr_point : TrackingPointRec)
    (rest : List (TrackingPointRec × TrackingPointRec)) (acc : List StopRec) :
    stopsLoop m ((prev_point, curr_point) :: rest) acc = .error .attributeError := rfl

/-- Insertion preserves length. -/
theorem insertByTime_length (p : TrackingPointRec) (l : List TrackingPointRec) :
    (insertByTime p l).length = l.length + 1 := by
  induction l with
  | nil => rfl
  | cons q r ih =>
      by_cases h : p.recorded_at < q.recorded_at <;>
        simp [insertByTime, h, ih]

/-- Sorting preserves length. -/
theorem sortByTime_length (l : List TrackingPointRec) :
    (sortByTime l).length = l.length := by
  induction l with
  | nil => rfl
  | cons p r ih => simp [sortByTime, insertByTime_length, ih]

/-- A list of length at least two splits off its first two elements. -/
theorem exists_cons_cons_of_two_le {α : Type} {l : List α} (h : 2 ≤ l.length) :
    ∃ a b r, l = a :: b :: r := by
  match l, h with
  | a :: b :: r, _ => exact ⟨a, b, r, rfl⟩

/-! ### C1 — coordinate validation on the ping path -/

/-- C1 (counterexample): the claim says `recordPing` validates
coordinates first and fails with `InvalidCoordinate` for out-of-range
input.  In fact a ping with latitude 100 (out of range) fails with the
generic save error — exactly as an in-range ping does — so no
coordinate validation distinguishes the two, and no
`InvalidCoordinate`-style rejection exists. -/
theorem track_driver_out_of_range_cex :
    ¬ (-90 ≤ (100 : ℚ) ∧ (100 : ℚ) ≤ 90) ∧
    track_driver dbEmpty 1 1 100 0 none
      = (.error (.exc "Error saving tracking point"), dbEmpty) ∧
    track_driver dbEmpty 1 1 1 1 none
      = (.error (.exc "Error saving tracking point"), dbEmpty) :=
  ⟨by norm_num, rfl, rfl⟩

/-- C1 (amended): `recordPing` (`track_driver`) performs no coordinate
validation at all; for every input — out of range or not — it fails
with the generic `"Error saving tracking point"` exception (the
`TrackingPoint` constructor receives the unmapped keyword arguments
`driver_id` and `speed_kph`), raised before any state mutation, so no
`TrackingPoint` is appended and the driver's current-location state is
unchanged for all inputs. -/
theorem track_driver_amended (db : DB) (driver_id shipment_id : Nat)
    (latitude longitude : ℚ) (speed_kph : Option ℚ) :
    (track_driver db driver_id shipment_id latitude longitude speed_kph).1
        = .error (.exc "Error saving tracking point") ∧
    (track_driver db driver_id shipment_id latitude longitude speed_kph).2 = db :=
  ⟨rfl, rfl⟩

/-! ### C2 — route deviation and `RouteNotFound` -/

/-- C2 (counterexample): the claim says that when the shipment exists
but its planned route is absent, deviation is reported as unavailable
rather than an error.  The `Shipment` model has no route attribute at
all, so for the existing shipment 1 `calculate_route_deviation` raises
`AttributeError` instead of reporting anything; for the missing
shipment 2 it raises the route-not-found exception. -/
theorem route_deviation_cex :
    calculate_route_deviation dbOneShipment 1 0 0 100 = .error .attributeError ∧
    calculate_route_deviation dbOneShipment 2 0 0 100
      = .error (.exc "Shipment route not found") :=
  ⟨rfl, rfl⟩

/-- C2 (amended): `calculate_route_deviation` raises
`"Shipment route not found"` exactly when the shipment does not exist
and `AttributeError` (from reading the unmapped `shipment.route`) for
every existing shipment — deviation is never reported as unavailable;
`recordPing` (`track_driver`) itself never surfaces the route-not-found
failure, because it always fails at the save step first, with the store
unchanged. -/
theorem route_deviation_amended (db : DB) (shipment_id : Nat)
    (latitude longitude threshold_meters : ℚ) (driver_id : Nat) (sp : Option ℚ) :
    (getShipment db shipment_id = none →
      calculate_route_deviation db shipment_id latitude longitude threshold_meters
        = .error (.exc "Shipment route not found")) ∧
    (∀ s, getShipment db shipment_id = some s →
      calculate_route_deviation db shipment_id latitude longitude threshold_meters
        = .error .attributeError) ∧
    (track_driver db driver_id shipment_id latitude longitude sp).1
        ≠ .error (.exc "Shipment route not found") ∧
    (track_driver db driver_id shipment_id latitude longitude sp).2 = db := by
  refine ⟨?_, ?_, ?_, rfl⟩
  · intro h
    simp [calculate_route_deviation, h]
  · intro s h
    simp [calculate_route_deviation, h]
  · rw [track_driver_run]
    simp

/-- C2 (witness): the amended statement applied to the concrete store
`dbOneShipment` at the missing shipment 2 and the existing shipment 1. -/
theorem route_deviation_amended_witness :
    calculate_route_deviation dbOneShipment 2 0 0 100
        = .error (.exc "Shipment route not found") ∧
    calculate_route_deviation dbOneShipment 1 0 0 100 = .error .attributeError :=
  ⟨(route_deviation_amended dbOneShipment 2 0 0 100 1 none).1 rfl,
   (route_deviation_amended dbOneShipment 1 0 0 100 1 none).2.1 _ rfl⟩

/-! ### C3 — nearest-driver search -/

/-- C3 (code bug): with one fully eligible driver in range the search is
claimed to return that driver; instead, as soon as any candidate passes
the availability check, the distance call raises (`driver.location` has
no `y` attribute, and `calculate_distance_km` is in any case called
without its `db` parameter), so the scan never returns a driver.  With
no candidates it does return `None`. -/
theorem find_nearest_crashes_on_eligible_candidate :
    find_nearest_available_driver 0 0 1 dbEligibleDriver 50 = .error .attributeError ∧
    find_nearest_available_driver 0 0 1 dbEmpty 50 = .ok none :=
  ⟨rfl, rfl⟩

/-! ### C4 — sequence validation -/

/-- C4 (code bug): `validateSequence` is claimed never to throw; in fact
for any log with at least two points the pair loop's distance call
raises (`TrackingPoint` has no `x` attribute, and the call omits the
`db` argument), so shipment 1's two-point log throws, and only the
fewer-than-two-points branch (shipment 2) returns the trivially valid
result. -/
theorem validate_sequence_throws_with_two_points :
    validate_tracking_point_sequence 1 dbTwoPoints = .error .attributeError ∧
    validate_tracking_point_sequence 2 dbTwoPoints
      = .ok { valid := true, anomalies := [], total_points_checked := none,
              message := "Not enough data to validate" } :=
  ⟨rfl, rfl⟩

/-! ### C6 — stop detection -/

/-- C6 (code bug): two points 50 m apart (by the store's distance) and 6
minutes apart are claimed to yield exactly one stop with
`minStopMinutes = 5` and zero stops with `minStopMinutes = 10`; in fact
the pair loop's distance call raises before the stop condition is ever
evaluated, so both calls throw, and only a log with fewer than two
points (shipment 2) returns a stop list. -/
theorem detect_stops_throws_on_qualifying_pair :
    detect_delivery_stops 1 dbSixMinutesApart 5 = .error .attributeError ∧
    detect_delivery_stops 1 dbSixMinutesApart 10 = .error .attributeError ∧
    detect_delivery_stops 2 dbSixMinutesApart 5 = .ok [] :=
  ⟨rfl, rfl, rfl⟩

/-! ### C8 — ETA estimation -/

/-- C8 (counterexample): the claim says `estimateArrival` fails with
`InvalidSpeed` iff a speed is explicitly provided and negative, and
that a zero or absent speed falls back to 40 km/h in the returned
result.  In fact a provided negative speed fails with `TypeError` (the
distance call omits `calculate_distance_km`'s `db` parameter) — there
is no `InvalidSpeed` failure anywhere — and the absent-speed call fails
identically instead of returning a fallback result. -/
theorem eta_negative_speed_cex :
    calculate_estimated_delivery_time 0 0 1 1 (some (-5)) = .error .typeError ∧
    calculate_estimated_delivery_time 0 0 1 1 none = .error .typeError :=
  ⟨rfl, rfl⟩

/-- C8 (amended): `calculate_estimated_delivery_time` raises `TypeError`
for every input, before any speed handling; no `InvalidSpeed` failure
exists.  The speed-fallback expression written in (dead) code maps
every non-positive or absent speed to the 40 km/h constant. -/
theorem eta_amended :
    (∀ (a b c d : ℚ) (sp : Option ℚ),
      calculate_estimated_delivery_time a b c d sp = .error .typeError) ∧
    (∀ s : ℚ, s ≤ 0 → speedOrFallback (some s) = 40) ∧
    speedOrFallback none = 40 := by
  refine ⟨fun a b c d sp => rfl, fun s hs => ?_, rfl⟩
  simp only [speedOrFallback]
  rw [if_neg]
  rintro ⟨-, h2⟩
  exact absurd h2 (not_lt.mpr hs)

/-- C8 (witness): the amended statement applied at a provided negative
speed of −5 km/h. -/
theorem eta_amended_witness :
    calculate_estimated_delivery_time 0 0 1 1 (some (-5)) = .error .typeError ∧
    speedOrFallback (some (-5)) = 40 :=
  ⟨eta_amended.1 0 0 1 1 (some (-5)), eta_amended.2.1 (-5) (by norm_num)⟩

/-! ### C5 — total distance traveled -/

/-- The store's line length is the sum over consecutive pairs. -/
theorem lineLength_eq_zip_sum (db : DB) (l : List GeoPt) :
    lineLength db l = ((l.zip l.tail).map (fun pr => db.dist pr.1 pr.2)).sum := by
  induction l with
  | nil => rfl
  | cons a r ih =>
      cases r with
      | nil => rfl
      | cons b r2 =>
          simp only [lineLength, ih, List.tail_cons, List.zip_cons_cons,
            List.map_cons, List.sum_cons]

/-- The numerator-by-denominator division is the mathematical floor. -/
theorem ratFloor_eq_floor (q : ℚ) : ratFloor q = ⌊q⌋ :=
  Rat.floor_def.symm

/-- Rounding an integral rational returns it unchanged. -/
theorem pyRound2_intCast (n : ℤ) : pyRound2 (n : ℚ) = (n : ℚ) := by
  have h : ((n : ℚ)) * 100 = ((n * 100 : ℤ) : ℚ) := by push_cast; ring
  simp only [pyRound2, ratFloor_eq_floor, h, Int.floor_intCast, sub_self]
  rw [if_neg (by norm_num), if_pos (by norm_num)]
  push_cast
  rw [mul_div_assoc]
  norm_num

/-- Rounding zero gives zero. -/
theorem pyRound2_zero : pyRound2 0 = 0 := by
  simpa using pyRound2_intCast 0

/-- C5 (counterexample): the claim says `totalDistanceTraveled` returns
the kilometre sum of consecutive pairwise `distanceKm`.  On a store
whose distance primitive reports 1000 metres between the two logged
points, the code returns 1000 (the raw store length, which the route
exposes as `total_distance_meters`), while the claimed kilometre sum is
1. -/
theorem total_distance_cex :
    calculate_total_distance_traveled dbKilometreApart 1 = 1000 ∧
    claimed_total_distance_km dbKilometreApart 1 = 1 ∧
    (1000 : ℚ) ≠ 1 := by
  refine ⟨?_, ?_, by norm_num⟩
  · have h1 : calculate_total_distance_traveled dbKilometreApart 1
        = pyRound2 (1000 + 0) := rfl
    rw [h1, add_zero]
    have h2 := pyRound2_intCast 1000
    push_cast at h2
    exact h2
  · have h1 : claimed_total_distance_km dbKilometreApart 1
        = quantizeHalfUp2 (1000 / 1000) + 0 := rfl
    rw [h1, add_zero]
    rw [show ((1000 : ℚ) / 1000) = 1 by norm_num]
    rw [quantizeHalfUp2, if_pos (by norm_num), ratFloor_eq_floor]
    rw [show ((1 : ℚ) * 100 + 1 / 2) = 201 / 2 by norm_num]
    rw [show ⌊(201 : ℚ) / 2⌋ = 100 by rw [Int.floor_eq_iff]; norm_num]
    norm_num

/-- C5 (amended): `calculate_total_distance_traveled` returns the
store's line length — the sum of the store's consecutive pairwise
distances in its native unit (metres), not divided by 1000 — over the
shipment's points in stored order (the query has no `ORDER BY`),
rounded to two decimals; a log with zero or one point yields 0. -/
theorem total_distance_amended (db : DB) (shipment_id : Nat) :
    calculate_total_distance_traveled db shipment_id
      = pyRound2 (((((storedTrackingPoints db shipment_id).map (·.location)).zip
          ((storedTrackingPoints db shipment_id).map (·.location)).tail).map
          (fun pr => db.dist pr.1 pr.2)).sum) ∧
    ((storedTrackingPoints db shipment_id).length ≤ 1 →
      calculate_total_distance_traveled db shipment_id = 0) := by
  constructor
  · rw [calculate_total_distance_traveled, lineLength_eq_zip_sum]
  · intro h
    rw [calculate_total_distance_traveled]
    rcases hl : storedTrackingPoints db shipment_id with - | ⟨p, - | ⟨q, r⟩⟩
    · exact pyRound2_zero
    · exact pyRound2_zero
    · rw [hl] at h
      simp at h

/-- C5 (witness): the amended statement's zero-or-one-point clause
applied to the empty store. -/
theorem total_distance_amended_witness :
    calculate_total_distance_traveled dbEmpty 1 = 0 :=
  (total_distance_amended dbEmpty 1).2 (by decide)

/-! ### C7 — average speed -/

/-- C7 (counterexample): the claim says a log with fewer than 2 points
returns an all-zero `{avg, max, min}` result, and that pairwise speeds
are computed otherwise.  The two-point log of shipment 1 instead throws
(the loop's distance call raises), and the empty log of shipment 2
returns a result whose `min_speed_kmh` key does not exist (`none`), so
no all-zero min is reported. -/
theorem average_speed_cex :
    calculate_average_speed 1 dbTwoPoints = .error .attributeError ∧
    calculate_average_speed 2 dbTwoPoints
      = .ok { average_speed_kmh := 0, max_speed_kmh := 0, min_speed_kmh := none,
              message := some "Insufficient tracking data",
              calculated_from_points := none, recorded_speeds_available := none } :=
  ⟨rfl, rfl⟩

/-- C7 (amended): for fewer than 2 points `calculate_average_speed`
returns zeros for average and max with the insufficient-data message
and **no** min field; for 2 or more points it raises an uncaught error
(the pair loop's distance call reads the absent `x` attribute, and
omits the `db` argument), so the documented speed metrics are never
produced. -/
theorem average_speed_amended (shipment_id : Nat) (db : DB) :
    ((orderedTrackingPoints db shipment_id).length < 2 →
      calculate_average_speed shipment_id db
        = .ok { average_speed_kmh := 0, max_speed_kmh := 0, min_speed_kmh := none,
                message := some "Insufficient tracking data",
                calculated_from_points := none, recorded_speeds_available := none }) ∧
    (2 ≤ (orderedTrackingPoints db shipment_id).length →
      calculate_average_speed shipment_id db = .error .attributeError) := by
  constructor
  · intro h
    simp only [calculate_average_speed]
    rw [if_pos h]
  · intro h
    obtain ⟨a, b, r, hl⟩ := exists_cons_cons_of_two_le h
    simp only [calculate_average_speed, hl]
    rw [if_neg (by simp only [List.length_cons]; omega)]
    rfl

/-- C7 (witness): the amended statement applied to the empty log of
shipment 2 and the two-point log of shipment 1 in `dbTwoPoints`. -/
theorem average_speed_amended_witness :
    calculate_average_speed 2 dbTwoPoints
      = .ok { average_speed_kmh := 0, max_speed_kmh := 0, min_speed_kmh := none,
              message := some "Insufficient tracking data",
              calculated_from_points := none, recorded_speeds_available := none } ∧
    calculate_average_speed 1 dbTwoPoints = .error .attributeError :=
  ⟨(average_speed_amended 2 dbTwoPoints).1 (by decide),
   (average_speed_amended 1 dbTwoPoints).2 (by decide)⟩

/-! ### C9 — optimal vehicle selection -/

/-- The preferred-class scan followed by the first-suitable fallback:
when some member satisfies the preference, the result is a `find?` hit
satisfying it. -/
theorem matchPick_of_mem {p : VehicleRec → Bool} {S : List VehicleRec}
    {m : VehicleRec} (hm : m ∈ S) (hpm : p m = true) :
    ∃ v, (match S.find? p with
          | some v => some v
          | none => S.head?) = some v ∧ p v = true := by
  have hfind : (S.find? p).isSome := List.find?_isSome.mpr ⟨m, hm, hpm⟩
  obtain ⟨v, hv⟩ := Option.isSome_iff_exists.mp hfind
  exact ⟨v, by rw [hv], List.find?_some hv⟩

/-- The preferred-class scan followed by the fallback always produces a
member of the scanned list when it is nonempty. -/
theorem matchPick_mem {p : VehicleRec → Bool} {S : List VehicleRec}
    {v : VehicleRec}
    (hv : (match S.find? p with
           | some v => some v
           | none => S.head?) = some v) : v ∈ S := by
  cases hfind : S.find? p with
  | some u =>
      rw [hfind] at hv
      cases hv
      exact List.mem_of_find?_eq_some hfind
  | none =>
      rw [hfind] at hv
      exact List.mem_of_mem_head? hv

/-- The preferred-class scan followed by the fallback never produces
`none` on a nonempty list. -/
theorem matchPick_ne_none {p : VehicleRec → Bool} {S : List VehicleRec}
    (hS : S ≠ []) :
    (match S.find? p with
     | some v => some v
     | none => S.head?) ≠ none := by
  cases hfind : S.find? p with
  | some u =>
      exact Option.some_ne_none u
  | none =>
      intro h
      have h2 : S.head? = none := h
      have h3 := List.head?_isSome.mpr hS
      rw [h2] at h3
      simp at h3

/-- C9: `get_optimal_vehicle_for_shipment` returns `none` exactly when
no suitable vehicle exists; any returned vehicle is suitable (available,
active, of sufficient capacity); in the short/light tier
(`distance < 5`, `weight < 10`) a suitable motorcycle is preferred when
one exists; in the medium tier a suitable van or pickup, else a
suitable truck; and — in every tier — when the preferred class is
absent from the suitable candidates the first suitable candidate is
returned regardless of class. -/
theorem optimal_vehicle_selection (w d : ℚ) (db : DB) :
    (get_optimal_vehicle_for_shipment w d db = none ↔ suitableVehicles w db = []) ∧
    (∀ v, get_optimal_vehicle_for_shipment w d db = some v → v ∈ suitableVehicles w db) ∧
    (∀ v, v ∈ suitableVehicles w db →
      v.status = VehicleStatus.available ∧ v.is_active = true ∧ w ≤ v.capacity_kg) ∧
    (d < 5 → w < 10 → ∀ m, m ∈ suitableVehicles w db →
      m.vehicle_type = VehicleType.motorcycle →
      ∃ v, get_optimal_vehicle_for_shipment w d db = some v ∧
        v.vehicle_type = VehicleType.motorcycle) ∧
    (¬ (d < 5 ∧ w < 10) → d < 20 → w < 500 → ∀ m, m ∈ suitableVehicles w db →
      (m.vehicle_type = VehicleType.van ∨ m.vehicle_type = VehicleType.pickup) →
      ∃ v, get_optimal_vehicle_for_shipment w d db = some v ∧
        (v.vehicle_type = VehicleType.van ∨ v.vehicle_type = VehicleType.pickup)) ∧
    (¬ (d < 5 ∧ w < 10) → ¬ (d < 20 ∧ w < 500) → ∀ m, m ∈ suitableVehicles w db →
      m.vehicle_type = VehicleType.truck →
      ∃ v, get_optimal_vehicle_for_shipment w d db = some v ∧
        v.vehicle_type = VehicleType.truck) ∧
    (d < 5 → w < 10 →
      (∀ v, v ∈ suitableVehicles w db → v.vehicle_type ≠ VehicleType.motorcycle) →
      get_optimal_vehicle_for_shipment w d db = (suitableVehicles w db).head?) ∧
    (¬ (d < 5 ∧ w < 10) → d < 20 → w < 500 →
      (∀ v, v ∈ suitableVehicles w db →
        ¬ (v.vehicle_type = VehicleType.van ∨ v.vehicle_type = VehicleType.pickup)) →
      get_optimal_vehicle_for_shipment w d db = (suitableVehicles w db).head?) ∧
    (¬ (d < 5 ∧ w < 10) → ¬ (d < 20 ∧ w < 500) →
      (∀ v, v ∈ suitableVehicles w db → v.vehicle_type ≠ VehicleType.truck) →
      get_optimal_vehicle_for_shipment w d db = (suitableVehicles w db).head?) := by
  refine ⟨?_, ?_, ?_, ?_, ?_, ?_, ?_, ?_, ?_⟩
  · by_cases hS : suitableVehicles w db = []
    · simp [get_optimal_vehicle_for_shipment, hS]
    · have hne : (suitableVehicles w db).isEmpty = false := by
        simpa [List.isEmpty_iff] using hS
      constructor
      · intro hf
        exfalso
        simp only [get_optimal_vehicle_for_shipment, hne, Bool.false_eq_true,
          if_false] at hf
        by_cases h1 : d < 5 ∧ w < 10
        · rw [if_pos h1] at hf
          exact matchPick_ne_none hS hf
        · rw [if_neg h1] at hf
          by_cases h2 : d < 20 ∧ w < 500
          · rw [if_pos h2] at hf
            exact matchPick_ne_none hS hf
          · rw [if_neg h2] at hf
            exact matchPick_ne_none hS hf
      · intro hf
        exact absurd hf hS
  · intro v hf
    by_cases hS : (suitableVehicles w db).isEmpty
    · simp [get_optimal_vehicle_for_shipment, hS] at hf
    · simp only [get_optimal_vehicle_for_shipment, hS, Bool.false_eq_true,
        if_false] at hf
      by_cases h1 : d < 5 ∧ w < 10
      · rw [if_pos h1] at hf
        exact matchPick_mem hf
      · rw [if_neg h1] at hf
        by_cases h2 : d < 20 ∧ w < 500
        · rw [if_pos h2] at hf
          exact matchPick_mem hf
        · rw [if_neg h2] at hf
          exact matchPick_mem hf
  · intro v hv
    simp only [suitableVehicles, List.mem_filter, Bool.and_eq_true,
      decide_eq_true_eq] at hv
    exact ⟨hv.2.1.1, hv.2.1.2, hv.2.2⟩
  · intro hd hw m hm hmt
    have hSne : suitableVehicles w db ≠ [] := List.ne_nil_of_mem hm
    have hne : (suitableVehicles w db).isEmpty = false := by
      simpa [List.isEmpty_iff] using hSne
    obtain ⟨v, hmv, hpv⟩ := matchPick_of_mem (S := suitableVehicles w db)
      (p := fun v => decide (v.vehicle_type = VehicleType.motorcycle)) hm
      (by simp [hmt])
    refine ⟨v, ?_, by simpa using hpv⟩
    simp only [get_optimal_vehicle_for_shipment, hne, Bool.false_eq_true, if_false]
    rw [if_pos ⟨hd, hw⟩]
    exact hmv
  · intro hnot hd hw m hm hmt
    have hSne : suitableVehicles w db ≠ [] := List.ne_nil_of_mem hm
    have hne : (suitableVehicles w db).isEmpty = false := by
      simpa [List.isEmpty_iff] using hSne
    obtain ⟨v, hmv, hpv⟩ := matchPick_of_mem (S := suitableVehicles w db)
      (p := fun v => decide (v.vehicle_type = VehicleType.van ∨
        v.vehicle_type = VehicleType.pickup)) hm (by simpa using hmt)
    refine ⟨v, ?_, by simpa using hpv⟩
    simp only [get_optimal_vehicle_for_shipment, hne, Bool.false_eq_true, if_false]
    rw [if_neg hnot, if_pos ⟨hd, hw⟩]
    exact hmv
  · intro hnot1 hnot2 m hm hmt
    have hSne : suitableVehicles w db ≠ [] := List.ne_nil_of_mem hm
    have hne : (suitableVehicles w db).isEmpty = false := by
      simpa [List.isEmpty_iff] using hSne
    obtain ⟨v, hmv, hpv⟩ := matchPick_of_mem (S := suitableVehicles w db)
      (p := fun v => decide (v.vehicle_type = VehicleType.truck)) hm
      (by simp [hmt])
    refine ⟨v, ?_, by simpa using hpv⟩
    simp only [get_optimal_vehicle_for_shipment, hne, Bool.false_eq_true, if_false]
    rw [if_neg hnot1, if_neg hnot2]
    exact hmv
  · intro hd hw hnone
    by_cases hS : suitableVehicles w db = []
    · simp [get_optimal_vehicle_for_shipment, hS]
    · have hne : (suitableVehicles w db).isEmpty = false := by
        simpa [List.isEmpty_iff] using hS
      have hfind : (suitableVehicles w db).find?
          (fun v => decide (v.vehicle_type = VehicleType.motorcycle)) = none :=
        List.find?_eq_none.mpr (fun x hx => by simpa using hnone x hx)
      simp only [get_optimal_vehicle_for_shipment, hne, Bool.false_eq_true, if_false]
      rw [if_pos ⟨hd, hw⟩, hfind]
  · intro hnot1 hd hw hnone
    by_cases hS : suitableVehicles w db = []
    · simp [get_optimal_vehicle_for_shipment, hS]
    · have hne : (suitableVehicles w db).isEmpty = false := by
        simpa [List.isEmpty_iff] using hS
      have hfind : (suitableVehicles w db).find?
          (fun v => decide (v.vehicle_type = VehicleType.van ∨
            v.vehicle_type = VehicleType.pickup)) = none :=
        List.find?_eq_none.mpr (fun x hx => by simpa using hnone x hx)
      simp only [get_optimal_vehicle_for_shipment, hne, Bool.false_eq_true, if_false]
      rw [if_neg hnot1, if_pos ⟨hd, hw⟩, hfind]
  · intro hnot1 hnot2 hnone
    by_cases hS : suitableVehicles w db = []
    · simp [get_optimal_vehicle_for_shipment, hS]
    · have hne : (suitableVehicles w db).isEmpty = false := by
        simpa [List.isEmpty_iff] using hS
      have hfind : (suitableVehicles w db).find?
          (fun v => decide (v.vehicle_type = VehicleType.truck)) = none :=
        List.find?_eq_none.mpr (fun x hx => by simpa using hnone x hx)
      simp only [get_optimal_vehicle_for_shipment, hne, Bool.false_eq_true, if_false]
      rw [if_neg hnot1, if_neg hnot2, hfind]

/-- C9 (witness): the fallback clause applied to the claim's own
instance — weight 8 kg, distance 3 km, only a suitable van in stock —
returns the van. -/
theorem optimal_vehicle_selection_witness :
    get_optimal_vehicle_for_shipment 8 3 dbVanOnly = some vanOnly := by
  rw [(optimal_vehicle_selection 8 3 dbVanOnly).2.2.2.2.2.2.1 (by norm_num)
    (by norm_num) (by decide)]
  rfl

/-! ### C10 — availability check with a dangling vehicle id -/

/-- C10: for a driver that exists, is active, is not off duty and is
under the workload cap, if the driver's assigned vehicle id has no
vehicle record, `check_driver_availability_for_shipment` reports
`available = true` for a shipment of any weight — the capacity check
`if vehicle and vehicle.capacity_kg < shipment_weight_kg` is skipped
when the lookup returns nothing. -/
theorem check_availability_missing_vehicle_reports_available
    (db : DB) (driver_id : Nat) (shipment_weight_kg : ℚ)
    (driver : DriverRec) (vid : Nat)
    (hfound : getDriver db driver_id = some driver)
    (hactive : driver.is_active = true)
    (hduty : driver.status ≠ DriverStatus.off_duty)
    (hworkload : (get_driver_active_workload driver_id db).can_accept_more = true)
    (hvid : driver.vehicle_id = some vid)
    (hnovehicle : getVehicle db vid = none) :
    (check_driver_availability_for_shipment driver_id shipment_weight_kg db).available
      = true := by
  simp [check_driver_availability_for_shipment, hfound, hactive, hduty,
    hworkload, hvid, hnovehicle]

/-- C10 (witness): the theorem applied to the store `dbDanglingVehicle`,
whose only driver carries vehicle id 99 with no matching vehicle
record, for a one-million-kilogram shipment. -/
theorem check_availability_missing_vehicle_witness :
    (check_driver_availability_for_shipment 1 1000000 dbDanglingVehicle).available
      = true :=
  check_availability_missing_vehicle_reports_available dbDanglingVehicle 1 1000000
    { id := 1, vehicle_id := some 99, status := DriverStatus.available,
      location := some ⟨0, 0⟩, is_active := true } 99
    rfl rfl (by decide) (by decide) rfl rfl
